import Mathlib

/-!
Verification of `efb_telegram_master/message.py` (class `ETMMsg`): the lazy
media resolver (`_load_file`, `get_file` / `get_path` / `get_filename`,
`set_file` / `set_path` / `set_filename`), the message reference codec
(`__getstate__`, `pickle`, `unpickle`) and the Telegram attachment
classifier (`put_telegram_file`).

External collaborators (the Telegram bot client, `mimetypes`, `magic`
content sniffing, `os.path` helpers, `tempfile` naming, `moviepy`, `PIL`,
`ffmpeg`, `utils.convert_tgs_to_gif`) are modelled as an oracle environment
`ResolveEnv`; file payloads are byte lists, temp files are records of
name / content / position / closed. The chat directory
(`ChatObjectCacheManager.get_chat`) is an oracle as well, and the calls
made to it and to the download client are recorded in explicit traces.
-/

/-- `ehforwarderbot.ChatType`: the kind of a chat. Only `Group` is
inspected by the code under verification. -/
inductive ChatType where
  | Private
  | Group
  | System
deriving DecidableEq, Repr

/-- `ehforwarderbot.MsgType`: the logical message kind. `Animation` is the
only value written by the code under verification. -/
inductive MsgType where
  | Text
  | Image
  | Animation
  | Audio
  | Video
  | Sticker
  | File
  | Unsupported
deriving DecidableEq, Repr

/-- `msg_type.TGMsgType`: the Telegram-side message sub-kind. The
constructors referenced by `message.py` are `Animation`, `Sticker`,
`AnimatedSticker` and `Audio`; the rest stand for every other value. -/
inductive TGMsgType where
  | Text
  | Animation
  | Sticker
  | AnimatedSticker
  | Audio
  | Document
  | Video
  | Voice
  | VideoNote
  | Photo
  | System
deriving DecidableEq, Repr

/-- A chat reference (`ETMChat`): identity tuple plus the two attributes the
code reads, `chat_type` and `is_self`. `group_id` is the enclosing chat's id
when this reference denotes a group member. -/
structure ETMChat where
  module_id : String
  chat_id : String
  group_id : Option String
  chat_type : ChatType
  is_self : Bool
deriving DecidableEq, Repr

/-- A named temporary file: its path, byte content, read position and
closed flag. -/
structure TempFile where
  name : String
  content : List Nat
  pos : Nat
  closed : Bool
deriving DecidableEq, Repr

/-- Modelled from the spec: `utils.chat_id_to_str` (not under `src/`)
produces the persisted chat key `"<network_id>.<chat_id>"`, or
`"<network_id>.<chat_id>.<member_id>"` when a member component exists. -/
def chat_id_to_str (c : ETMChat) : String :=
  match c.group_id with
  | none => c.module_id ++ "." ++ c.chat_id
  | some g => c.module_id ++ "." ++ g ++ "." ++ c.chat_id

/-- Modelled from the spec: `utils.chat_id_str_to_id` (not under `src/`)
splits a chat key at its first separator into the network id and the rest;
`unpickle` in the source destructures exactly two components from it. -/
def chat_id_str_to_id (s : String) : String × String :=
  match s.data.dropWhile (fun c => c ≠ '.') with
  | [] => (⟨s.data.takeWhile (fun c => c ≠ '.')⟩, "")
  | _ :: rest => (⟨s.data.takeWhile (fun c => c ≠ '.')⟩, ⟨rest⟩)

/-- Modelled from the spec: two chat references are the "same identity" iff
all present components (network id, chat id, optional member id) are equal;
`chat.py` defining `ETMChat.__eq__` is not under `src/`. -/
def sameIdentity (a b : ETMChat) : Bool :=
  a.module_id = b.module_id && a.chat_id = b.chat_id && a.group_id = b.group_id

/-- Identity comparison lifted to nullable chat references (`self.chat` or
`self.author` may be `None`). -/
def optSameIdentity : Option ETMChat → Option ETMChat → Bool
  | none, none => true
  | some a, some b => sameIdentity a b
  | _, _ => false

/-- The message object (`ETMMsg`) as the resolver and codec see it.
`fileAttr` / `pathAttr` are instance-dict entries named `file` / `path`
(present only when copied in from a plain `EFBMsg` dict); `etmFile`,
`etmPath`, `etmFilename`, `initialized` are the name-mangled private
attributes `_ETMMsg__file`, `_ETMMsg__path`, `_ETMMsg__filename`,
`_ETMMsg__initialized`. -/
structure ETMMsg where
  msgType : MsgType
  type_telegram : TGMsgType
  file_id : Option String
  mime : Option String
  chat : Option ETMChat
  author : Option ETMChat
  deliver_to_channel_id : String
  fileAttr : Option TempFile
  pathAttr : Option String
  etmFile : Option TempFile
  etmPath : Option String
  etmFilename : Option String
  initialized : Bool
deriving DecidableEq, Repr

/-- The serialized record produced by `__getstate__`: the message's fields
with `chat` / `author` replaced by their string keys. A field holding
`none` stands for a key that is absent or maps to `None`; on load both read
back as `None` through the class-level defaults. -/
structure MsgState where
  msgType : MsgType
  type_telegram : TGMsgType
  file_id : Option String
  mime : Option String
  chatKey : Option String
  authorKey : Option String
  deliver_to_channel_id : String
  fileAttr : Option TempFile
  pathAttr : Option String
  etmFile : Option TempFile
  etmPath : Option String
  etmFilename : Option String
  initialized : Bool
deriving DecidableEq, Repr

/-- `ETMMsg.__getstate__`: drops the `file` / `path` entries and the private
`_ETMMsg__file` / `_ETMMsg__path` cache (the source deletes each key only
when its value is not `None`; a key valued `None` and an absent key read
back identically, so both are `none` here), keeps `_ETMMsg__filename` and
`_ETMMsg__initialized`, and replaces non-`None` `chat` / `author` by their
database string keys. -/
def getstate (m : ETMMsg) : MsgState :=
  { msgType := m.msgType
    type_telegram := m.type_telegram
    file_id := m.file_id
    mime := m.mime
    chatKey := m.chat.map chat_id_to_str
    authorKey := m.author.map chat_id_to_str
    deliver_to_channel_id := m.deliver_to_channel_id
    fileAttr := none
    pathAttr := none
    etmFile := none
    etmPath := none
    etmFilename := m.etmFilename
    initialized := m.initialized }

/-- `pickle.loads` + `ETMMsg.__setstate__` before reference resolution: the
record's fields are copied back onto a message object; `chat` / `author`
still hold raw keys, represented here as `none` until `unpickle` fills
them. -/
def fromState (st : MsgState) : ETMMsg :=
  { msgType := st.msgType
    type_telegram := st.type_telegram
    file_id := st.file_id
    mime := st.mime
    chat := none
    author := none
    deliver_to_channel_id := st.deliver_to_channel_id
    fileAttr := st.fileAttr
    pathAttr := st.pathAttr
    etmFile := st.etmFile
    etmPath := st.etmPath
    etmFilename := st.etmFilename
    initialized := st.initialized }

/-- One call made to `ChatObjectCacheManager.get_chat`: positional
arguments module id, chat id, optional group id, and `build_dummy`. -/
structure DirCall where
  module_id : String
  chat_id : String
  parent : Option String
  dummy : Bool
deriving DecidableEq, Repr

/-- The external chat directory, as consumed by `unpickle`. -/
structure Directory where
  get_chat : String → String → Option String → Bool → Option ETMChat

/-- `ETMMsg.unpickle`: resolve the chat key with `build_dummy=True`; then
resolve the author — sharing the chat object itself when the (module, id)
pairs coincide, through the group-parent lookup when the resolved chat is a
group, and through a plain lookup otherwise. Returns the message together
with the list of directory calls made, in order. `none` when a key is
missing (the source would fail splitting `None`). -/
def ETMMsg.unpickle (dir : Directory) (st : MsgState) :
    Option (ETMMsg × List DirCall) :=
  match st.chatKey, st.authorKey with
  | some ck, some ak =>
    let cm := (chat_id_str_to_id ck).1
    let ci := (chat_id_str_to_id ck).2
    let am := (chat_id_str_to_id ak).1
    let ai := (chat_id_str_to_id ak).2
    let chat := dir.get_chat cm ci none true
    let base := fromState st
    let chatIsGroup : Bool := match chat with
      | some c => c.chat_type == ChatType.Group
      | none => false
    if am = cm ∧ ai = ci then
      some ({ base with chat := chat, author := chat },
        [⟨cm, ci, none, true⟩])
    else if chatIsGroup then
      let author := dir.get_chat am ai (some ci) true
      some ({ base with chat := chat, author := author },
        [⟨cm, ci, none, true⟩, ⟨am, ai, some ci, true⟩])
    else
      let author := dir.get_chat am ai none true
      some ({ base with chat := chat, author := author },
        [⟨cm, ci, none, true⟩, ⟨am, ai, none, true⟩])
  | _, _ => none

/-- `ETMMsg.pickle`: enqueue a `set_slave_chat_info` task for the chat, and
a second one for the author only when the author differs from the chat and
is not the self identity, then dump the `__getstate__` record. The task
list is returned, never executed. `none` when the author is `None` and its
`is_self` attribute would be dereferenced. -/
def ETMMsg.pickle (m : ETMMsg) : Option (List (Option ETMChat) × MsgState) :=
  if optSameIdentity m.chat m.author then
    some ([m.chat], getstate m)
  else
    match m.author with
    | none => none
    | some a =>
      if a.is_self then some ([m.chat], getstate m)
      else some ([m.chat, m.author], getstate m)

/-- Python falsiness for an optional string: `None` and `""` are falsy. -/
def falsyOptStr : Option String → Bool
  | none => true
  | some s => s.isEmpty

/-- Python `a or b` for an optional string `a` and a string default `b`. -/
def orElseStr : Option String → String → String
  | none, d => d
  | some s, d => if s.isEmpty then d else s

/-- The oracle environment standing for the external collaborators of
`_load_file`: the bot client, `mimetypes`, `os.path`, `tempfile`, `magic`,
`moviepy` / `ffmpeg`, `PIL` and `utils.convert_tgs_to_gif`. Functions that
read a file on disk (`magic.from_file`, `VideoFileClip` and the
transcoders) are modelled as functions of that file's byte content. -/
structure ResolveEnv where
  filePathOf : String → String
  contentOf : String → List Nat
  guessTypeMime : String → Option String
  guessExtension : String → Option String
  extOfPath : String → String
  baseNameOf : String → String
  sniffMime : List Nat → String
  tempName : Nat → String → String
  videoWidth : List Nat → Nat
  scaleGif : List Nat → List Nat
  toGif : List Nat → List Nat
  stickerPng : List Nat → List Nat
  tgsConvert : List Nat → Option (List Nat)

/-- Externally observable effects of one resolver run: how many downloads
were requested from the bot client, how many `ffmpeg` invocations used the
`scale=600:-2` filter, and how many plain `write_gif` re-encodings ran. -/
structure ResolveTrace where
  downloads : Nat
  scaleCalls : Nat
  gifCalls : Nat
deriving DecidableEq, Repr

/-- The empty effect trace. -/
def zeroTrace : ResolveTrace := ⟨0, 0, 0⟩

/-- The body of `_load_file` under `if self.file_id:` — download, MIME
determination, temp-file materialization and the three sub-kind
normalization branches. `ctr` numbers temporary files so each
`NamedTemporaryFile` gets a fresh name from the environment. Does not
touch the `initialized` flag (the source sets it after this body). -/
def loadFileCore (env : ResolveEnv) (ctr : Nat) (m : ETMMsg) (fid : String) :
    ETMMsg × Nat × ResolveTrace :=
  let metaPath := env.filePathOf fid
  let ext := if falsyOptStr m.mime then env.extOfPath metaPath
             else (env.guessExtension (m.mime.getD "")).getD ""
  let mime0 := if falsyOptStr m.mime then env.guessTypeMime metaPath
               else m.mime
  let fname := env.tempName ctr ext
  let content := env.contentOf fid
  let file : TempFile := ⟨fname, content, 0, false⟩
  let mime1 : String := match mime0 with
    | none => env.sniffMime content
    | some s => if s.isEmpty then env.sniffMime content else s
  let m1 := { m with
    mime := some mime1
    etmFile := some file
    etmPath := some fname
    etmFilename := some (orElseStr m.etmFilename (env.baseNameOf fname)) }
  if m1.type_telegram = TGMsgType.Animation then
    let gifName := env.tempName (ctr + 1) ".gif"
    let width := env.videoWidth content
    if m1.deliver_to_channel_id = "blueset.wechat" ∧ width > 600 then
      let gif : TempFile := ⟨gifName, env.scaleGif content, 0, false⟩
      ({ m1 with
          etmFile := some gif
          etmPath := some gifName
          etmFilename := some (orElseStr m1.etmFilename (env.baseNameOf gifName))
          mime := some "image/gif" },
        ctr + 2, ⟨1, 1, 0⟩)
    else
      let gif : TempFile := ⟨gifName, env.toGif content, 0, false⟩
      ({ m1 with
          etmFile := some gif
          etmPath := some gifName
          etmFilename := some (orElseStr m1.etmFilename (env.baseNameOf gifName))
          mime := some "image/gif" },
        ctr + 2, ⟨1, 0, 1⟩)
  else if m1.type_telegram = TGMsgType.Sticker then
    let outName := env.tempName (ctr + 1) ".png"
    let out : TempFile := ⟨outName, env.stickerPng content, 0, false⟩
    ({ m1 with
        mime := some "image/png"
        etmFilename := some (orElseStr m1.etmFilename (env.baseNameOf fname) ++ ".png")
        etmFile := some out
        etmPath := some outName },
      ctr + 2, ⟨1, 0, 0⟩)
  else if m1.type_telegram = TGMsgType.AnimatedSticker then
    let outName := env.tempName (ctr + 1) ".gif"
    match env.tgsConvert content with
    | some gifBytes =>
      ({ m1 with
          mime := some "image/gif"
          etmFilename := some (orElseStr m1.etmFilename (env.baseNameOf fname) ++ ".gif")
          etmFile := some (⟨outName, gifBytes, 0, false⟩ : TempFile)
          etmPath := some outName },
        ctr + 2, ⟨1, 0, 0⟩)
    | none =>
      ({ m1 with
          mime := some "application/json"
          etmFilename := some (orElseStr m1.etmFilename (env.baseNameOf fname) ++ ".json")
          etmFile := some (⟨fname, content, 0, false⟩ : TempFile)
          etmPath := some fname },
        ctr + 2, ⟨1, 0, 0⟩)
  else (m1, ctr + 1, ⟨1, 0, 0⟩)

/-- `ETMMsg._load_file`: run the download / normalization body only when the
content handle `file_id` is truthy, and set `_ETMMsg__initialized` in every
case. -/
def loadFile (env : ResolveEnv) (ctr : Nat) (m : ETMMsg) :
    ETMMsg × Nat × ResolveTrace :=
  if falsyOptStr m.file_id then
    ({ m with initialized := true }, ctr, zeroTrace)
  else
    let r := loadFileCore env ctr m (m.file_id.getD "")
    ({ r.1 with initialized := true }, r.2.1, r.2.2)

/-- `ETMMsg.get_file`: run `_load_file` unless already initialized, then
return `_ETMMsg__file`; also returns the updated message, temp-name counter
and effect trace. -/
def get_file (env : ResolveEnv) (ctr : Nat) (m : ETMMsg) :
    Option TempFile × ETMMsg × Nat × ResolveTrace :=
  if m.initialized then (m.etmFile, m, ctr, zeroTrace)
  else
    let r := loadFile env ctr m
    (r.1.etmFile, r.1, r.2.1, r.2.2)

/-- `ETMMsg.get_path`. -/
def get_path (env : ResolveEnv) (ctr : Nat) (m : ETMMsg) :
    Option String × ETMMsg × Nat × ResolveTrace :=
  if m.initialized then (m.etmPath, m, ctr, zeroTrace)
  else
    let r := loadFile env ctr m
    (r.1.etmPath, r.1, r.2.1, r.2.2)

/-- `ETMMsg.get_filename`. -/
def get_filename (env : ResolveEnv) (ctr : Nat) (m : ETMMsg) :
    Option String × ETMMsg × Nat × ResolveTrace :=
  if m.initialized then (m.etmFilename, m, ctr, zeroTrace)
  else
    let r := loadFile env ctr m
    (r.1.etmFilename, r.1, r.2.1, r.2.2)

/-- `ETMMsg.set_file`: writes the cache and stops initialization-on-demand. -/
def set_file (m : ETMMsg) (v : Option TempFile) : ETMMsg :=
  { m with initialized := true, etmFile := v }

/-- `ETMMsg.set_path`: writes the cache and stops initialization-on-demand. -/
def set_path (m : ETMMsg) (v : Option String) : ETMMsg :=
  { m with initialized := true, etmPath := v }

/-- `ETMMsg.set_filename`: writes only `_ETMMsg__filename`; the
`initialized` flag is left untouched. -/
def set_filename (m : ETMMsg) (v : Option String) : ETMMsg :=
  { m with etmFilename := v }

/-- A Telegram attachment carrying `file_id` and `mime_type`
(`telegram.Animation`, `.Document`, `.Video`, `.Voice`, `.VideoNote`,
`.PhotoSize`). -/
structure TgAttachment where
  file_id : String
  mime_type : Option String
deriving DecidableEq, Repr

/-- `telegram.Audio`: adds the title / performer metadata the classifier
uses for the synthesized filename. -/
structure TgAudio where
  file_id : String
  mime_type : Option String
  title : String
  performer : String
deriving DecidableEq, Repr

/-- `telegram.Sticker` as read by the classifier (only `file_id`). -/
structure TgSticker where
  file_id : String
deriving DecidableEq, Repr

/-- The shape of a raw `telegram.Message` as read by `put_telegram_file`:
one optional attachment per media slot, and the photo-size list. -/
structure TelegramMessage where
  animation : Option TgAttachment
  document : Option TgAttachment
  video : Option TgAttachment
  voice : Option TgAttachment
  video_note : Option TgAttachment
  audio : Option TgAudio
  sticker : Option TgSticker
  photo : List TgAttachment
deriving Repr

/-- The `for tg_media_type in ('animation', 'document', 'video', 'voice',
'video_note')` loop: the first present attachment, in that order. -/
def firstCommonFile (msg : TelegramMessage) : Option TgAttachment :=
  match msg.animation with
  | some a => some a
  | none => match msg.document with
    | some a => some a
    | none => match msg.video with
      | some a => some a
      | none => match msg.voice with
        | some a => some a
        | none => msg.video_note

/-- Python f-string rendering of an optional value: `None` prints as the
four-letter word. -/
def pyStrOpt : Option String → String
  | none => "None"
  | some s => s

/-- `ETMMsg.put_telegram_file`: store the Telegram message type computed by
`get_msg_type` (passed in as the oracle `gmt`), then the common-file loop,
then the audio / sticker / animated-sticker / photo fall-through. `gex`
stands for `mimetypes.guess_extension`. `none` marks inputs on which the
source would raise (`message.audio` or `message.sticker` being `None` in a
branch that dereferences it, or a `None` audio MIME passed to
`guess_extension`). -/
def put_telegram_file (gmt : TelegramMessage → TGMsgType)
    (gex : String → Option String) (m : ETMMsg) (msg : TelegramMessage) :
    Option ETMMsg :=
  let m0 := { m with type_telegram := gmt msg }
  match firstCommonFile msg with
  | some att => some { m0 with file_id := some att.file_id, mime := att.mime_type }
  | none =>
    if m0.type_telegram = TGMsgType.Audio then
      match msg.audio with
      | none => none
      | some au =>
        match au.mime_type with
        | none => none
        | some mt =>
          let fn := au.title ++ " - " ++ au.performer ++ pyStrOpt (gex mt)
          some { m0 with
            file_id := some au.file_id
            mime := some mt
            etmFilename := some fn }
    else if m0.type_telegram = TGMsgType.Sticker then
      match msg.sticker with
      | none => none
      | some st => some { m0 with file_id := some st.file_id, mime := some "image/webp" }
    else if m0.type_telegram = TGMsgType.AnimatedSticker then
      match msg.sticker with
      | none => none
      | some st =>
        some { m0 with
          file_id := some st.file_id
          mime := some "application/json+tgs"
          msgType := MsgType.Animation }
    else
      match msg.photo.getLast? with
      | some att => some { m0 with file_id := some att.file_id, mime := some "image/jpeg" }
      | none => some m0

/-- Group-chat test used by `unpickle` on the nullable resolved chat
(`obj.chat and obj.chat.chat_type == ChatType.Group`). -/
def chatIsGroupOpt : Option ETMChat → Bool
  | some c => c.chat_type == ChatType.Group
  | none => false

/-- Concrete chat: a private chat on network `tg`. -/
def egChatA : ETMChat := ⟨"tg", "100", none, ChatType.Private, false⟩

/-- Concrete chat: a group chat on network `slave`. -/
def egChatGroup : ETMChat := ⟨"slave", "g1", none, ChatType.Group, false⟩

/-- Concrete chat: a second private member on network `slave`. -/
def egAuthorB : ETMChat := ⟨"slave", "u2", none, ChatType.Private, false⟩

/-- A fresh message with no content handle and no resolved media. -/
def egMsg0 : ETMMsg :=
  { msgType := MsgType.Text
    type_telegram := TGMsgType.Text
    file_id := none
    mime := none
    chat := some egChatA
    author := some egChatA
    deliver_to_channel_id := "blueset.wechat"
    fileAttr := none
    pathAttr := none
    etmFile := none
    etmPath := none
    etmFilename := none
    initialized := false }

/-- A classified animated-sticker message waiting for resolution. -/
def egTgsMsg : ETMMsg :=
  { egMsg0 with
    type_telegram := TGMsgType.AnimatedSticker
    msgType := MsgType.Animation
    mime := some "application/json+tgs"
    file_id := some "f1" }

/-- A classified animation message waiting for resolution. -/
def egAnimMsg : ETMMsg :=
  { egMsg0 with
    type_telegram := TGMsgType.Animation
    mime := some "video/mp4"
    file_id := some "f1" }

/-- A message whose author differs from its chat and is not the self
identity. -/
def egMsgC7 : ETMMsg := { egMsg0 with author := some egAuthorB }

/-- A concrete oracle environment whose vector-sticker conversion
succeeds. -/
def egEnv : ResolveEnv :=
  { filePathOf := fun fid => "documents/" ++ fid ++ ".bin"
    contentOf := fun _ => [1, 2, 3]
    guessTypeMime := fun _ => none
    guessExtension := fun _ => some ".bin"
    extOfPath := fun _ => ".bin"
    baseNameOf := fun s => s
    sniffMime := fun _ => "application/octet-stream"
    tempName := fun n suf => "tmp" ++ toString n ++ suf
    videoWidth := fun _ => 800
    scaleGif := fun c => 9 :: c
    toGif := fun c => 8 :: c
    stickerPng := fun c => 7 :: c
    tgsConvert := fun c => some (5 :: c) }

/-- The same environment with a failing vector-sticker conversion. -/
def egEnvFail : ResolveEnv := { egEnv with tgsConvert := fun _ => none }

/-- The same environment reporting a decoded frame width of 400. -/
def egEnvNarrow : ResolveEnv := { egEnv with videoWidth := fun _ => 400 }

/-- A concrete directory: chat ids beginning with `g` resolve to group
chats, everything else to private chats; the parent argument is recorded in
the produced reference. -/
def egDir : Directory :=
  ⟨fun mo id par _ =>
    some ⟨mo, id, par, if id = "g1" then ChatType.Group else ChatType.Private, false⟩⟩

/-- A serialized record whose chat key denotes a group chat and whose
author key denotes a different chat. -/
def egStateGroup : MsgState :=
  { getstate egMsg0 with chatKey := some "slave.g1", authorKey := some "slave.u2" }

/-- The concrete message obtained by deserializing, through `egDir`, the
serialized form of the resolved animated-sticker message. -/
def egRoundMsg : ETMMsg :=
  { msgType := MsgType.Animation
    type_telegram := TGMsgType.AnimatedSticker
    file_id := some "f1"
    mime := some "image/gif"
    chat := some ⟨"tg", "100", none, ChatType.Private, false⟩
    author := some ⟨"tg", "100", none, ChatType.Private, false⟩
    deliver_to_channel_id := "blueset.wechat"
    fileAttr := none
    pathAttr := none
    etmFile := none
    etmPath := none
    etmFilename := some "tmp0.bin.gif"
    initialized := true }

/-- The concrete message produced by deserializing `egStateGroup` through
`egDir`: a group chat with a group-member author. -/
def egGroupMsg : ETMMsg :=
  { egMsg0 with
    chat := some ⟨"slave", "g1", none, ChatType.Group, false⟩
    author := some ⟨"slave", "u2", some "g1", ChatType.Private, false⟩ }

/-- A raw Telegram message carrying both an animation and a document (and
a sticker), to exercise the common-file priority order. -/
def egTgMsgCommon : TelegramMessage :=
  { animation := some ⟨"anim1", some "video/mp4"⟩
    document := some ⟨"doc1", some "application/pdf"⟩
    video := none
    voice := none
    video_note := none
    audio := none
    sticker := some ⟨"stk1"⟩
    photo := [] }

/-- A raw Telegram message carrying only a sticker. -/
def egTgMsgSticker : TelegramMessage :=
  { animation := none
    document := none
    video := none
    voice := none
    video_note := none
    audio := none
    sticker := some ⟨"stk1"⟩
    photo := [] }

/-- A concrete stand-in for `get_msg_type`: animated sticker when only a
sticker is present, animation when an animation is present. -/
def egGmt : TelegramMessage → TGMsgType := fun msg =>
  match msg.animation, msg.sticker with
  | some _, _ => TGMsgType.Animation
  | none, some _ => TGMsgType.AnimatedSticker
  | _, _ => TGMsgType.Text

/-- A concrete stand-in for `mimetypes.guess_extension`. -/
def egGex : String → Option String := fun _ => some ".bin"

theorem loadFileCore_downloads (env : ResolveEnv) (ctr : Nat) (m : ETMMsg)
    (fid : String) : (loadFileCore env ctr m fid).2.2.downloads = 1 := by
  unfold loadFileCore
  dsimp only
  repeat' split
  all_goals rfl

theorem loadFile_initialized (env : ResolveEnv) (ctr : Nat) (m : ETMMsg) :
    ((loadFile env ctr m).1).initialized = true := by
  unfold loadFile
  split
  · rfl
  · rfl

theorem loadFile_downloads (env : ResolveEnv) (ctr : Nat) (m : ETMMsg)
    (h : falsyOptStr m.file_id = false) :
    (loadFile env ctr m).2.2.downloads = 1 := by
  unfold loadFile
  rw [h]
  simp [loadFileCore_downloads]

theorem loadFileCore_chat (env : ResolveEnv) (ctr : Nat) (m : ETMMsg)
    (fid : String) : (loadFileCore env ctr m fid).1.chat = m.chat := by
  unfold loadFileCore
  dsimp only
  repeat' split
  all_goals rfl

theorem loadFileCore_author (env : ResolveEnv) (ctr : Nat) (m : ETMMsg)
    (fid : String) : (loadFileCore env ctr m fid).1.author = m.author := by
  unfold loadFileCore
  dsimp only
  repeat' split
  all_goals rfl

theorem loadFile_chat (env : ResolveEnv) (ctr : Nat) (m : ETMMsg) :
    ((loadFile env ctr m).1).chat = m.chat := by
  unfold loadFile
  split
  · rfl
  · simp [loadFileCore_chat]

theorem loadFile_author (env : ResolveEnv) (ctr : Nat) (m : ETMMsg) :
    ((loadFile env ctr m).1).author = m.author := by
  unfold loadFile
  split
  · rfl
  · simp [loadFileCore_author]

theorem get_file_cached (env : ResolveEnv) (c : Nat) (m : ETMMsg)
    (h : m.initialized = true) :
    get_file env c m = (m.etmFile, m, c, zeroTrace) := by
  unfold get_file
  rw [h]
  simp

theorem get_path_cached (env : ResolveEnv) (c : Nat) (m : ETMMsg)
    (h : m.initialized = true) :
    get_path env c m = (m.etmPath, m, c, zeroTrace) := by
  unfold get_path
  rw [h]
  simp

theorem get_filename_cached (env : ResolveEnv) (c : Nat) (m : ETMMsg)
    (h : m.initialized = true) :
    get_filename env c m = (m.etmFilename, m, c, zeroTrace) := by
  unfold get_filename
  rw [h]
  simp

/-- C5: for every message whose content handle (`file_id`) is absent and
whose resolved-media fields were never set, each of `get_file`, `get_path`
and `get_filename` returns `None` and performs no remote download. -/
theorem C5_no_handle_accessors_none (env : ResolveEnv) (ctr : Nat)
    (m : ETMMsg) (hf : m.file_id = none) (h1 : m.etmFile = none)
    (h2 : m.etmPath = none) (h3 : m.etmFilename = none) :
    (get_file env ctr m).1 = none ∧
    (get_file env ctr m).2.2.2.downloads = 0 ∧
    (get_path env ctr m).1 = none ∧
    (get_path env ctr m).2.2.2.downloads = 0 ∧
    (get_filename env ctr m).1 = none ∧
    (get_filename env ctr m).2.2.2.downloads = 0 := by
  have hfal : falsyOptStr m.file_id = true := by rw [hf]; rfl
  unfold get_file get_path get_filename loadFile
  rw [hfal]
  by_cases hi : m.initialized = true
  · simp [hi, h1, h2, h3, zeroTrace]
  · simp [hi, h1, h2, h3, zeroTrace]

/-- C5 witness: the accessors of a fresh handle-less message all yield
`None` with zero downloads. -/
theorem C5_no_handle_accessors_none_witness :
    (get_file egEnv 0 egMsg0).1 = none ∧
    (get_file egEnv 0 egMsg0).2.2.2.downloads = 0 ∧
    (get_path egEnv 0 egMsg0).1 = none ∧
    (get_path egEnv 0 egMsg0).2.2.2.downloads = 0 ∧
    (get_filename egEnv 0 egMsg0).1 = none ∧
    (get_filename egEnv 0 egMsg0).2.2.2.downloads = 0 :=
  C5_no_handle_accessors_none egEnv 0 egMsg0 rfl rfl rfl rfl

/-- C4: with a content handle present, resolution runs at most once per
message object — the first `get_file` performs exactly one download, and
every later `get_file` / `get_path` / `get_filename` on the updated object
returns the identical cached value with no further download and no state
change. -/
theorem C4_resolution_at_most_once (env : ResolveEnv) (ctr : Nat)
    (m : ETMMsg) (hfid : falsyOptStr m.file_id = false)
    (hinit : m.initialized = false) :
    (get_file env ctr m).2.2.2.downloads = 1 ∧
    (get_file env ctr m).1 = (get_file env ctr m).2.1.etmFile ∧
    (∀ c, get_file env c (get_file env ctr m).2.1 =
      ((get_file env ctr m).2.1.etmFile, (get_file env ctr m).2.1, c, zeroTrace)) ∧
    (∀ c, get_path env c (get_file env ctr m).2.1 =
      ((get_file env ctr m).2.1.etmPath, (get_file env ctr m).2.1, c, zeroTrace)) ∧
    (∀ c, get_filename env c (get_file env ctr m).2.1 =
      ((get_file env ctr m).2.1.etmFilename, (get_file env ctr m).2.1, c, zeroTrace)) := by
  have hmsg : (get_file env ctr m).2.1 = (loadFile env ctr m).1 := by
    unfold get_file
    rw [hinit]
    simp
  have hini : ((get_file env ctr m).2.1).initialized = true := by
    rw [hmsg]; exact loadFile_initialized env ctr m
  refine ⟨?_, ?_, ?_, ?_, ?_⟩
  · unfold get_file
    rw [hinit]
    simpa using loadFile_downloads env ctr m hfid
  · unfold get_file
    rw [hinit]
    simp
  · intro c; exact get_file_cached env c _ hini
  · intro c; exact get_path_cached env c _ hini
  · intro c; exact get_filename_cached env c _ hini

/-- C4 witness: resolving the concrete animated-sticker message downloads
once, and a second `get_file` at counter 5 returns the cached file
unchanged. -/
theorem C4_resolution_at_most_once_witness :
    (get_file egEnv 0 egTgsMsg).2.2.2.downloads = 1 ∧
    get_file egEnv 5 (get_file egEnv 0 egTgsMsg).2.1 =
      ((get_file egEnv 0 egTgsMsg).2.1.etmFile, (get_file egEnv 0 egTgsMsg).2.1, 5, zeroTrace) := by
  have h := C4_resolution_at_most_once egEnv 0 egTgsMsg (by decide) (by decide)
  exact ⟨h.1, h.2.2.1 5⟩

/-- C8: `set_path` before any read makes every later `get_path` return the
written path with no download ever, while `set_filename` alone leaves the
suppression flag clear, so a later read of path still triggers resolution
(one download). -/
theorem C8_set_path_suppresses_set_filename_does_not (env : ResolveEnv)
    (ctr : Nat) (m : ETMMsg) (p f : String) (hinit : m.initialized = false)
    (hfid : falsyOptStr m.file_id = false) :
    (∀ c, get_path env c (set_path m (some p)) =
      (some p, set_path m (some p), c, zeroTrace)) ∧
    (∀ c, (get_file env c (set_path m (some p))).2.2.2.downloads = 0) ∧
    (∀ c, (get_filename env c (set_path m (some p))).2.2.2.downloads = 0) ∧
    (set_filename m (some f)).initialized = false ∧
    (get_path env ctr (set_filename m (some f))).2.2.2.downloads = 1 := by
  have hset : (set_path m (some p)).initialized = true := rfl
  refine ⟨?_, ?_, ?_, ?_, ?_⟩
  · intro c
    exact get_path_cached env c _ hset
  · intro c
    rw [get_file_cached env c _ hset]
    rfl
  · intro c
    rw [get_filename_cached env c _ hset]
    rfl
  · simpa [set_filename] using hinit
  · have hsf : (set_filename m (some f)).initialized = false := by
      simpa [set_filename] using hinit
    have hsd : falsyOptStr (set_filename m (some f)).file_id = false := by
      simpa [set_filename] using hfid
    unfold get_path
    rw [hsf]
    simpa using loadFile_downloads env ctr (set_filename m (some f)) hsd

/-- C8 witness: on the concrete animated-sticker message, `set_path`
fixes the path at `/tmp/x` without a download, and after `set_filename`
alone a path read still downloads once. -/
theorem C8_set_path_suppresses_set_filename_does_not_witness :
    get_path egEnv 3 (set_path egTgsMsg (some "/tmp/x")) =
      (some "/tmp/x", set_path egTgsMsg (some "/tmp/x"), 3, zeroTrace) ∧
    (get_path egEnv 0 (set_filename egTgsMsg (some "s.tgs"))).2.2.2.downloads = 1 := by
  have h := C8_set_path_suppresses_set_filename_does_not egEnv 0 egTgsMsg
    "/tmp/x" "s.tgs" (by decide) (by decide)
  exact ⟨h.1 3, h.2.2.2.2⟩

/-- C2 counterexample: after resolving the concrete animated-sticker
message with `get_file`, the serialized record still carries the resolved
filename — `__getstate__` never deletes `_ETMMsg__filename`, so the claim
that every Resolved Media field (including the filename) is stripped is
false. -/
theorem C2_counterexample_filename_survives :
    (getstate (get_file egEnv 0 egTgsMsg).2.1).etmFilename = some "tmp0.bin.gif" ∧
    (getstate (get_file egEnv 0 egTgsMsg).2.1).etmFilename ≠ none := by
  constructor
  · rfl
  · intro h
    simpa using congrArg Option.isSome (rfl.symm.trans h :
      (some "tmp0.bin.gif" : Option String) = none)

/-- C2 amended: serialization strips the binary file handle and the
filesystem path (the `file` / `path` entries and the private
`_ETMMsg__file` / `_ETMMsg__path` cache) from the encoded record
regardless of resolution state, but the filename field is retained
verbatim; chat and author are replaced in the encoding by their string
keys. -/
theorem C2_amended_getstate_strips_file_path_keeps_filename (m : ETMMsg) :
    (getstate m).fileAttr = none ∧
    (getstate m).pathAttr = none ∧
    (getstate m).etmFile = none ∧
    (getstate m).etmPath = none ∧
    (getstate m).etmFilename = m.etmFilename ∧
    (getstate m).chatKey = m.chat.map chat_id_to_str ∧
    (getstate m).authorKey = m.author.map chat_id_to_str := by
  exact ⟨rfl, rfl, rfl, rfl, rfl, rfl, rfl⟩

/-- C7: `pickle` enqueues a metadata-refresh task for the chat, and a
second task for the author exactly when the author differs from the chat
and is not the self identity; the tasks are only listed, never executed. -/
theorem C7_pickle_enqueues_refresh_tasks (m : ETMMsg) (a : ETMChat)
    (ha : m.author = some a) :
    ((optSameIdentity m.chat m.author = false ∧ a.is_self = false) →
       ETMMsg.pickle m = some ([m.chat, m.author], getstate m)) ∧
    (optSameIdentity m.chat m.author = true →
       ETMMsg.pickle m = some ([m.chat], getstate m)) ∧
    (a.is_self = true →
       ETMMsg.pickle m = some ([m.chat], getstate m)) := by
  unfold ETMMsg.pickle
  refine ⟨?_, ?_, ?_⟩
  · rintro ⟨hdiff, hself⟩
    rw [hdiff, ha]
    simp [hself]
  · intro hsame
    rw [hsame]
    simp
  · intro hself
    by_cases hsame : optSameIdentity m.chat m.author = true
    · rw [hsame]; simp
    · rw [eq_false_of_ne_true hsame, ha]
      simp [hself]

/-- C7 witness: for the concrete message whose author differs from its
chat and is not the self identity, both tasks are enqueued in order. -/
theorem C7_pickle_enqueues_refresh_tasks_witness :
    ETMMsg.pickle egMsgC7 = some ([egMsgC7.chat, egMsgC7.author], getstate egMsgC7) :=
  (C7_pickle_enqueues_refresh_tasks egMsgC7 egAuthorB rfl).1 ⟨by decide, rfl⟩

/-- C3: deserialization resolves the chat key through the directory with
`build_dummy=true`; the author is the very same resolved chat (one single
directory call) when the author key's (network, chat) pair equals the
chat key's, is resolved with the chat id as group-parent context when the
resolved chat is a group chat, and is resolved with no parent context
otherwise — always with `build_dummy=true`. -/
theorem C3_unpickle_chat_author_tiebreak (dir : Directory) (st : MsgState)
    (ck ak : String) (hc : st.chatKey = some ck) (ha : st.authorKey = some ak) :
    ∃ m2 calls, ETMMsg.unpickle dir st = some (m2, calls) ∧
      m2.chat = dir.get_chat (chat_id_str_to_id ck).1 (chat_id_str_to_id ck).2 none true ∧
      (((chat_id_str_to_id ak).1 = (chat_id_str_to_id ck).1 ∧
          (chat_id_str_to_id ak).2 = (chat_id_str_to_id ck).2) →
        m2.author = m2.chat ∧
        calls = [⟨(chat_id_str_to_id ck).1, (chat_id_str_to_id ck).2, none, true⟩]) ∧
      (¬((chat_id_str_to_id ak).1 = (chat_id_str_to_id ck).1 ∧
          (chat_id_str_to_id ak).2 = (chat_id_str_to_id ck).2) →
        (chatIsGroupOpt m2.chat = true →
          m2.author = dir.get_chat (chat_id_str_to_id ak).1 (chat_id_str_to_id ak).2
            (some (chat_id_str_to_id ck).2) true ∧
          calls = [⟨(chat_id_str_to_id ck).1, (chat_id_str_to_id ck).2, none, true⟩,
                   ⟨(chat_id_str_to_id ak).1, (chat_id_str_to_id ak).2,
                    some (chat_id_str_to_id ck).2, true⟩]) ∧
        (chatIsGroupOpt m2.chat = false →
          m2.author = dir.get_chat (chat_id_str_to_id ak).1 (chat_id_str_to_id ak).2 none true ∧
          calls = [⟨(chat_id_str_to_id ck).1, (chat_id_str_to_id ck).2, none, true⟩,
                   ⟨(chat_id_str_to_id ak).1, (chat_id_str_to_id ak).2, none, true⟩])) := by
  unfold ETMMsg.unpickle
  rw [hc, ha]
  dsimp only
  by_cases heq : (chat_id_str_to_id ak).1 = (chat_id_str_to_id ck).1 ∧
      (chat_id_str_to_id ak).2 = (chat_id_str_to_id ck).2
  · rw [if_pos heq]
    exact ⟨_, _, rfl, rfl, fun _ => ⟨rfl, rfl⟩, fun hne => absurd heq hne⟩
  · rw [if_neg heq]
    have hmatch : (match dir.get_chat (chat_id_str_to_id ck).1 (chat_id_str_to_id ck).2 none true with
        | some c => c.chat_type == ChatType.Group
        | none => false) =
        chatIsGroupOpt (dir.get_chat (chat_id_str_to_id ck).1 (chat_id_str_to_id ck).2 none true) := by
      cases dir.get_chat (chat_id_str_to_id ck).1 (chat_id_str_to_id ck).2 none true <;> rfl
    rw [hmatch]
    cases hgc : chatIsGroupOpt (dir.get_chat (chat_id_str_to_id ck).1 (chat_id_str_to_id ck).2 none true)
    · rw [if_neg (by simp)]
      refine ⟨_, _, rfl, rfl, fun h => absurd h heq, fun _ => ⟨?_, fun _ => ⟨rfl, rfl⟩⟩⟩
      intro hg2
      dsimp only at hg2
      rw [hgc] at hg2
      cases hg2
    · rw [if_pos rfl]
      refine ⟨_, _, rfl, rfl, fun h => absurd h heq, fun _ => ⟨fun _ => ⟨rfl, rfl⟩, ?_⟩⟩
      intro hg2
      dsimp only at hg2
      rw [hgc] at hg2
      cases hg2

/-- C3 witness: a record with chat key `slave.g1` (a group on the concrete
directory) and author key `slave.u2` resolves the author through the
group-parent lookup, with both calls using `build_dummy=true`. -/
theorem C3_unpickle_chat_author_tiebreak_witness :
    ETMMsg.unpickle egDir egStateGroup =
      some (egGroupMsg,
        [⟨"slave", "g1", none, true⟩, ⟨"slave", "u2", some "g1", true⟩]) ∧
    egGroupMsg.author = egDir.get_chat "slave" "u2" (some "g1") true := by
  have hu : ETMMsg.unpickle egDir egStateGroup =
      some (egGroupMsg,
        [⟨"slave", "g1", none, true⟩, ⟨"slave", "u2", some "g1", true⟩]) := by decide
  obtain ⟨m2, calls, h1, h2, h3, h4⟩ :=
    C3_unpickle_chat_author_tiebreak egDir egStateGroup "slave.g1" "slave.u2" rfl rfl
  have hne : ¬((chat_id_str_to_id "slave.u2").1 = (chat_id_str_to_id "slave.g1").1 ∧
      (chat_id_str_to_id "slave.u2").2 = (chat_id_str_to_id "slave.g1").2) := by decide
  have hgrp : chatIsGroupOpt m2.chat = true := by rw [h2]; decide
  obtain ⟨hauth, hcalls⟩ := (h4 hne).1 hgrp
  have hm2 : m2 = egGroupMsg := by
    rw [h1] at hu
    exact (Prod.mk.injEq .. ▸ (Option.some.injEq .. ▸ hu)).1
  refine ⟨hu, ?_⟩
  rw [← hm2, hauth]
  decide

/-- C10: a message that was resolved (a `get_file` ran with a content
handle present) and then serialized deserializes with the private
initialized flag still set while the file and path fields were stripped,
so `get_file` and `get_path` on the deserialized message return `None`
and never trigger a new download. -/
theorem C10_resolved_roundtrip_cannot_rematerialize (env : ResolveEnv)
    (dir : Directory) (ctr : Nat) (m : ETMMsg)
    (hfid : falsyOptStr m.file_id = false) (hinit : m.initialized = false)
    (c a : ETMChat) (hc : m.chat = some c) (ha : m.author = some a) :
    ∀ m2 calls,
      ETMMsg.unpickle dir (getstate (get_file env ctr m).2.1) = some (m2, calls) →
      m2.initialized = true ∧ m2.etmFile = none ∧ m2.etmPath = none ∧
      (∀ k, get_file env k m2 = (none, m2, k, zeroTrace)) ∧
      (∀ k, get_path env k m2 = (none, m2, k, zeroTrace)) := by
  intro m2 calls h
  have hM : (get_file env ctr m).2.1 = (loadFile env ctr m).1 := by
    unfold get_file
    rw [hinit]
    simp
  have hMi : ((get_file env ctr m).2.1).initialized = true := by
    rw [hM]; exact loadFile_initialized env ctr m
  have hck : (getstate (get_file env ctr m).2.1).chatKey = some (chat_id_to_str c) := by
    show ((get_file env ctr m).2.1).chat.map chat_id_to_str = _
    rw [hM, loadFile_chat, hc]
    rfl
  have hak : (getstate (get_file env ctr m).2.1).authorKey = some (chat_id_to_str a) := by
    show ((get_file env ctr m).2.1).author.map chat_id_to_str = _
    rw [hM, loadFile_author, ha]
    rfl
  have hsi : (getstate (get_file env ctr m).2.1).initialized = true := hMi
  have hsf : (getstate (get_file env ctr m).2.1).etmFile = none := rfl
  have hsp : (getstate (get_file env ctr m).2.1).etmPath = none := rfl
  unfold ETMMsg.unpickle at h
  rw [hck, hak] at h
  dsimp only at h
  have hfields : m2.initialized = true ∧ m2.etmFile = none ∧ m2.etmPath = none := by
    split at h <;> [skip; split at h] <;>
      · rw [Option.some.injEq, Prod.mk.injEq] at h
        obtain ⟨h1, -⟩ := h
        rw [← h1]
        exact ⟨hsi, hsf, hsp⟩
  refine ⟨hfields.1, hfields.2.1, hfields.2.2, ?_, ?_⟩
  · intro k
    rw [get_file_cached env k m2 hfields.1, hfields.2.1]
  · intro k
    rw [get_path_cached env k m2 hfields.1, hfields.2.2]

/-- C10 witness: the resolved animated-sticker message, serialized and
deserialized through the concrete directory, keeps its initialized flag,
has no file or path, and its accessors return `None` with no download. -/
theorem C10_resolved_roundtrip_cannot_rematerialize_witness :
    ETMMsg.unpickle egDir (getstate (get_file egEnv 0 egTgsMsg).2.1) =
      some (egRoundMsg, [⟨"tg", "100", none, true⟩]) ∧
    egRoundMsg.initialized = true ∧ egRoundMsg.etmFile = none ∧
    get_file egEnv 7 egRoundMsg = (none, egRoundMsg, 7, zeroTrace) ∧
    get_path egEnv 7 egRoundMsg = (none, egRoundMsg, 7, zeroTrace) := by
  have hu : ETMMsg.unpickle egDir (getstate (get_file egEnv 0 egTgsMsg).2.1) =
      some (egRoundMsg, [⟨"tg", "100", none, true⟩]) := by decide
  have h := C10_resolved_roundtrip_cannot_rematerialize egEnv egDir 0 egTgsMsg
    (by decide) rfl egChatA egChatA rfl rfl egRoundMsg [⟨"tg", "100", none, true⟩] hu
  exact ⟨hu, h.1, h.2.1, h.2.2.2.1 7, h.2.2.2.2 7⟩

/-- C1 counterexample: resolving the concrete animated-sticker message
under an environment whose TGS conversion fails yields MIME
`application/json`, not the `application/json+tgs` marker that was
declared at classification time — so the claim that the MIME reverts to
the raw vector-format marker is false on the code. -/
theorem C1_counterexample_failure_mime_is_plain_json :
    egEnvFail.tgsConvert (egEnvFail.contentOf "f1") = none ∧
    egTgsMsg.mime = some "application/json+tgs" ∧
    (loadFile egEnvFail 0 egTgsMsg).1.mime = some "application/json" ∧
    (loadFile egEnvFail 0 egTgsMsg).1.mime ≠ some "application/json+tgs" := by
  refine ⟨rfl, rfl, by decide, by decide⟩

/-- C1 amended: for a vector/animated sticker message, resolution attempts
the TGS-to-GIF conversion; on success the MIME becomes `image/gif` and the
filename gains `.gif`; on failure the original undecoded payload is kept as
the result (rewound to start, not closed), the MIME becomes the plain
`application/json` type (not the `application/json+tgs` marker declared at
classification time), and the filename gains `.json`. -/
theorem C1_amended_tgs_fallback (env : ResolveEnv) (ctr : Nat) (m : ETMMsg)
    (fid : String) (hty : m.type_telegram = TGMsgType.AnimatedSticker)
    (hfid : m.file_id = some fid) (hne : falsyOptStr m.file_id = false) :
    (∀ g, env.tgsConvert (env.contentOf fid) = some g →
      (loadFile env ctr m).1.mime = some "image/gif" ∧
      (∃ b, (loadFile env ctr m).1.etmFilename = some (b ++ ".gif")) ∧
      (∃ f, (loadFile env ctr m).1.etmFile = some f ∧
        f.content = g ∧ f.pos = 0 ∧ f.closed = false)) ∧
    (env.tgsConvert (env.contentOf fid) = none →
      (loadFile env ctr m).1.mime = some "application/json" ∧
      (∃ b, (loadFile env ctr m).1.etmFilename = some (b ++ ".json")) ∧
      (∃ f, (loadFile env ctr m).1.etmFile = some f ∧
        f.content = env.contentOf fid ∧ f.pos = 0 ∧ f.closed = false)) := by
  have hload : loadFile env ctr m =
      (let r := loadFileCore env ctr m fid
       ({ r.1 with initialized := true }, r.2.1, r.2.2)) := by
    unfold loadFile
    rw [hne]
    simp [hfid]
  constructor
  · intro g hg
    rw [hload]
    unfold loadFileCore
    dsimp only
    rw [if_neg (by rw [hty]; intro h; cases h),
        if_neg (by rw [hty]; intro h; cases h),
        if_pos (by rw [hty]),
        hg]
    exact ⟨rfl, ⟨_, rfl⟩, ⟨_, rfl, rfl, rfl, rfl⟩⟩
  · intro hg
    rw [hload]
    unfold loadFileCore
    dsimp only
    rw [if_neg (by rw [hty]; intro h; cases h),
        if_neg (by rw [hty]; intro h; cases h),
        if_pos (by rw [hty]),
        hg]
    exact ⟨rfl, ⟨_, rfl⟩, ⟨_, rfl, rfl, rfl, rfl⟩⟩

/-- C1 witness: on the concrete sticker message, a succeeding conversion
gives `image/gif` and a failing one gives `application/json` while the
returned file holds the original downloaded payload rewound to the
start. -/
theorem C1_amended_tgs_fallback_witness :
    (loadFile egEnv 0 egTgsMsg).1.mime = some "image/gif" ∧
    (loadFile egEnvFail 0 egTgsMsg).1.mime = some "application/json" ∧
    (loadFile egEnvFail 0 egTgsMsg).1.etmFile =
      some ⟨"tmp0.bin", [1, 2, 3], 0, false⟩ := by
  refine ⟨((C1_amended_tgs_fallback egEnv 0 egTgsMsg "f1" rfl rfl (by decide)).1
      _ rfl).1, ?_, ?_⟩
  · exact ((C1_amended_tgs_fallback egEnvFail 0 egTgsMsg "f1" rfl rfl
      (by decide)).2 rfl).1
  · obtain ⟨f, hf, hcont, hpos, hcl⟩ :=
      ((C1_amended_tgs_fallback egEnvFail 0 egTgsMsg "f1" rfl rfl (by decide)).2 rfl).2.2
    have hfv : some f = some (⟨"tmp0.bin", [1, 2, 3], 0, false⟩ : TempFile) := by
      rw [← hf]; decide
    rw [hf, Option.some.inj hfv]

/-- C6: for an animation message under resolution, the external transcoder
runs with the fixed `scale=600:-2` down-scale filter iff the destination
channel id equals `blueset.wechat` and the decoded frame width exceeds
600; otherwise the payload is re-encoded to GIF without scaling; in both
cases the final MIME is `image/gif`. -/
theorem C6_animation_scale_workaround (env : ResolveEnv) (ctr : Nat)
    (m : ETMMsg) (fid : String) (hty : m.type_telegram = TGMsgType.Animation)
    (hfid : m.file_id = some fid) (hne : falsyOptStr m.file_id = false) :
    (loadFile env ctr m).1.mime = some "image/gif" ∧
    ((loadFile env ctr m).2.2.scaleCalls = 1 ∧ (loadFile env ctr m).2.2.gifCalls = 0 ↔
      (m.deliver_to_channel_id = "blueset.wechat" ∧
        env.videoWidth (env.contentOf fid) > 600)) ∧
    ((loadFile env ctr m).2.2.gifCalls = 1 ∧ (loadFile env ctr m).2.2.scaleCalls = 0 ↔
      ¬(m.deliver_to_channel_id = "blueset.wechat" ∧
        env.videoWidth (env.contentOf fid) > 600)) := by
  have hload : loadFile env ctr m =
      (let r := loadFileCore env ctr m fid
       ({ r.1 with initialized := true }, r.2.1, r.2.2)) := by
    unfold loadFile
    rw [hne]
    simp [hfid]
  rw [hload]
  unfold loadFileCore
  dsimp only
  rw [if_pos (by rw [hty])]
  by_cases hcond : m.deliver_to_channel_id = "blueset.wechat" ∧
      env.videoWidth (env.contentOf fid) > 600
  · rw [if_pos hcond]
    simp [hcond]
  · rw [if_neg hcond]
    simp [hcond]

/-- C6 witness: with destination `blueset.wechat` and width 800 the scale
filter runs; with width 400 the plain GIF re-encoding runs and the MIME is
still `image/gif`. -/
theorem C6_animation_scale_workaround_witness :
    (loadFile egEnv 0 egAnimMsg).2.2.scaleCalls = 1 ∧
    (loadFile egEnvNarrow 0 egAnimMsg).2.2.gifCalls = 1 ∧
    (loadFile egEnvNarrow 0 egAnimMsg).1.mime = some "image/gif" := by
  refine ⟨?_, ?_, ?_⟩
  · exact ((C6_animation_scale_workaround egEnv 0 egAnimMsg "f1" rfl rfl
      (by decide)).2.1.mpr (by decide)).1
  · exact ((C6_animation_scale_workaround egEnvNarrow 0 egAnimMsg "f1" rfl rfl
      (by decide)).2.2.mpr (by decide)).1
  · exact (C6_animation_scale_workaround egEnvNarrow 0 egAnimMsg "f1" rfl rfl
      (by decide)).1

/-- C9: the classifier checks the common-file family (animation, document,
video, voice, video-note) first, in that order — the first attachment
present wins and its file id and declared MIME are written, whatever the
computed Telegram type — and the audio / sticker / animated-sticker /
photo checks run only when no common-file attachment is present. -/
theorem C9_classifier_common_file_priority (gmt : TelegramMessage → TGMsgType)
    (gex : String → Option String) (m : ETMMsg) (msg : TelegramMessage) :
    (∀ a, msg.animation = some a →
      put_telegram_file gmt gex m msg =
        some { m with
          type_telegram := gmt msg
          file_id := some a.file_id
          mime := a.mime_type }) ∧
    (∀ a, msg.animation = none → msg.document = some a →
      put_telegram_file gmt gex m msg =
        some { m with
          type_telegram := gmt msg
          file_id := some a.file_id
          mime := a.mime_type }) ∧
    (∀ a, msg.animation = none → msg.document = none → msg.video = some a →
      put_telegram_file gmt gex m msg =
        some { m with
          type_telegram := gmt msg
          file_id := some a.file_id
          mime := a.mime_type }) ∧
    (∀ a, msg.animation = none → msg.document = none → msg.video = none →
      msg.voice = some a →
      put_telegram_file gmt gex m msg =
        some { m with
          type_telegram := gmt msg
          file_id := some a.file_id
          mime := a.mime_type }) ∧
    (∀ a, msg.animation = none → msg.document = none → msg.video = none →
      msg.voice = none → msg.video_note = some a →
      put_telegram_file gmt gex m msg =
        some { m with
          type_telegram := gmt msg
          file_id := some a.file_id
          mime := a.mime_type }) ∧
    (msg.animation = none → msg.document = none → msg.video = none →
      msg.voice = none → msg.video_note = none →
      ((gmt msg = TGMsgType.Sticker → ∀ st, msg.sticker = some st →
        put_telegram_file gmt gex m msg =
          some { m with
            type_telegram := gmt msg
            file_id := some st.file_id
            mime := some "image/webp" }) ∧
       (gmt msg = TGMsgType.AnimatedSticker → ∀ st, msg.sticker = some st →
        put_telegram_file gmt gex m msg =
          some { m with
            type_telegram := gmt msg
            file_id := some st.file_id
            mime := some "application/json+tgs"
            msgType := MsgType.Animation }) ∧
       (gmt msg = TGMsgType.Audio → ∀ au mt, msg.audio = some au →
        au.mime_type = some mt →
        put_telegram_file gmt gex m msg =
          some { m with
            type_telegram := gmt msg
            file_id := some au.file_id
            mime := some mt
            etmFilename := some (au.title ++ " - " ++ au.performer ++
              pyStrOpt (gex mt)) }) ∧
       (gmt msg ≠ TGMsgType.Audio → gmt msg ≠ TGMsgType.Sticker →
        gmt msg ≠ TGMsgType.AnimatedSticker →
        ∀ att, msg.photo.getLast? = some att →
        put_telegram_file gmt gex m msg =
          some { m with
            type_telegram := gmt msg
            file_id := some att.file_id
            mime := some "image/jpeg" }))) := by
  refine ⟨?_, ?_, ?_, ?_, ?_, ?_⟩
  · intro a ha
    simp [put_telegram_file, firstCommonFile, ha]
  · intro a h1 h2
    simp [put_telegram_file, firstCommonFile, h1, h2]
  · intro a h1 h2 h3
    simp [put_telegram_file, firstCommonFile, h1, h2, h3]
  · intro a h1 h2 h3 h4
    simp [put_telegram_file, firstCommonFile, h1, h2, h3, h4]
  · intro a h1 h2 h3 h4 h5
    simp [put_telegram_file, firstCommonFile, h1, h2, h3, h4, h5]
  · intro h1 h2 h3 h4 h5
    refine ⟨?_, ?_, ?_, ?_⟩
    · intro hty st hst
      simp [put_telegram_file, firstCommonFile, h1, h2, h3, h4, h5, hty, hst]
    · intro hty st hst
      simp [put_telegram_file, firstCommonFile, h1, h2, h3, h4, h5, hty, hst]
    · intro hty au mt hau hmt
      simp [put_telegram_file, firstCommonFile, h1, h2, h3, h4, h5, hty, hau, hmt]
    · intro hty1 hty2 hty3 att hatt
      simp [put_telegram_file, firstCommonFile, h1, h2, h3, h4, h5,
        hty1, hty2, hty3, hatt]

/-- C9 witness: with both an animation and a document present the
animation wins even though a sticker is also attached; with only a sticker
present the animated-sticker branch runs and upgrades the logical type. -/
theorem C9_classifier_common_file_priority_witness :
    put_telegram_file egGmt egGex egMsg0 egTgMsgCommon =
      some { egMsg0 with
        type_telegram := TGMsgType.Animation
        file_id := some "anim1"
        mime := some "video/mp4" } ∧
    put_telegram_file egGmt egGex egMsg0 egTgMsgSticker =
      some { egMsg0 with
        type_telegram := TGMsgType.AnimatedSticker
        file_id := some "stk1"
        mime := some "application/json+tgs"
        msgType := MsgType.Animation } := by
  constructor
  · have h := (C9_classifier_common_file_priority egGmt egGex egMsg0
      egTgMsgCommon).1 ⟨"anim1", some "video/mp4"⟩ rfl
    rw [h]
    decide
  · have h := (((C9_classifier_common_file_priority egGmt egGex egMsg0
      egTgMsgSticker).2.2.2.2.2 rfl rfl rfl rfl rfl).2.1 rfl) ⟨"stk1"⟩ rfl
    rw [h]
    decide
